import Mathlib

/-!
Shallow embedding of the township-rs pipeline (src/main.rs) and proofs
about its township-resolution behaviour.

The data model mirrors the serde structs; `get_township` mirrors the
resolver function line by line (status check, first result, in-order scan
with the three tag checks and break, Springfield override); `get_geo_data`
and `mainRun` model the sequential batch loop and the top-level run, with
the network call and the address-file read supplied as explicit oracles.
-/

namespace Township

/-- One administrative-area label attached to a result
(struct AddressComponent in src/main.rs). -/
structure AddressComponent where
  long_name : String
  short_name : String
  types : List String
deriving Repr, DecidableEq

/-- One candidate match (struct AddressResult in src/main.rs). -/
structure AddressResult where
  address_components : List AddressComponent
  formatted_address : String
deriving Repr, DecidableEq

/-- One geocode response (struct GeoDataAddress in src/main.rs). -/
structure GeoDataAddress where
  status : String
  results : List AddressResult
deriving Repr, DecidableEq

/-- The in-order scan over address components from get_township's for loop
(src/main.rs lines 106-121): for each component in order, check
"locality", then "administrative_area_level_3", then
"administrative_area_level_2", and break with the component's long_name at
the first component matching any of the three; if the loop falls through,
the township stays the empty string it was initialised to. -/
def matchTownship : List AddressComponent → String
  | [] => ""
  | addr_component :: rest =>
    if addr_component.types.any (fun t => t == "locality") then
      addr_component.long_name
    else if addr_component.types.any (fun t => t == "administrative_area_level_3") then
      addr_component.long_name
    else if addr_component.types.any (fun t => t == "administrative_area_level_2") then
      addr_component.long_name
    else
      matchTownship rest

/-- The special-case rewrite of get_township (src/main.rs lines 123-125):
an exact match on "Springfield" becomes "Springfield City". -/
def applySpringfieldOverride (township : String) : String :=
  if township = "Springfield" then "Springfield City" else township

/-- The resolver get_township (src/main.rs lines 98-130): None on a
non-OK status or empty results, otherwise the first result's
formatted_address paired with the scanned (and possibly overridden)
township. -/
def get_township (result : GeoDataAddress) : Option (String × String) :=
  if result.status ≠ "OK" then
    none
  else
    match result.results.head? with
    | none => none
    | some first_result =>
      let township := matchTownship first_result.address_components
      let township := applySpringfieldOverride township
      some (first_result.formatted_address, township)

/-- A component carries at least one of the three priority tags. -/
def matchesAny (c : AddressComponent) : Bool :=
  c.types.any (fun t =>
    t == "locality" || t == "administrative_area_level_3"
      || t == "administrative_area_level_2")

/-- The long_name of the first component carrying any of the three
priority tags, or the empty string when none does. -/
def firstPriorityName (cs : List AddressComponent) : String :=
  match cs.find? matchesAny with
  | some c => c.long_name
  | none => ""

/-- Sequential fetch loop of get_geo_data (src/main.rs lines 66-78),
with the per-address network call supplied as an oracle
fetch : key → address → Except Unit GeoDataAddress; an error at any
address aborts the whole loop, exactly as the question-mark operator does. -/
def fetchAll (key : String) (fetch : String → String → Except Unit GeoDataAddress) :
    List String → Except Unit (List GeoDataAddress)
  | [] => Except.ok []
  | address :: rest =>
    match fetch key address with
    | Except.error e => Except.error e
    | Except.ok response =>
      match fetchAll key fetch rest with
      | Except.error e => Except.error e
      | Except.ok results => Except.ok (response :: results)

/-- get_geo_data (src/main.rs lines 58-80): first the API_KEY lookup (its
question-mark propagates a missing credential), then the sequential fetch
loop. -/
def get_geo_data (apiKey : Except Unit String)
    (fetch : String → String → Except Unit GeoDataAddress)
    (addresses : List String) : Except Unit (List GeoDataAddress) :=
  match apiKey with
  | Except.error e => Except.error e
  | Except.ok key => fetchAll key fetch addresses

/-- The writing phase of main (src/main.rs lines 144-153): on a geocode
error the question-mark aborts before the output file is created; on
success the header row is written followed by one row per response the
resolver accepts. -/
def processResults :
    Except Unit (List GeoDataAddress) → Except Unit (Option (List (String × String)))
  | Except.error e => Except.error e
  | Except.ok results =>
    Except.ok (some (("Address", "Township") :: results.filterMap get_township))

/-- main (src/main.rs lines 133-156) with the address-file read and the
network modelled as oracles. The value Except.ok none models a run that
terminates successfully having produced no output file; Except.ok (some
rows) models a run that wrote exactly rows; Except.error models a fatal
abort with no output file. Note the source's `if let Ok(addrs)` silently
drops a read failure and main returns Ok. -/
def mainRun (readResult : Except Unit (List String)) (apiKey : Except Unit String)
    (fetch : String → String → Except Unit GeoDataAddress) :
    Except Unit (Option (List (String × String))) :=
  match readResult with
  | Except.error _ => Except.ok none
  | Except.ok addrs => processResults (get_geo_data apiKey fetch addrs)

/-- One address pushed through the geocode client and the resolver:
none when the resolver rejects; the fetch-error case never arises in the
contexts where this is used (all-calls-succeed runs). -/
def resolveAddr (key : String) (fetch : String → String → Except Unit GeoDataAddress)
    (a : String) : Option (String × String) :=
  match fetch key a with
  | Except.ok r => get_township r
  | Except.error _ => none

/-- Scanning a types list for any of the three priority tags at once finds
a tag exactly when scanning for each tag separately does. -/
theorem any_priority_split (l : List String) :
    (l.any fun t =>
        t == "locality" || t == "administrative_area_level_3"
          || t == "administrative_area_level_2")
      = (l.any (fun t => t == "locality")
        || l.any (fun t => t == "administrative_area_level_3")
        || l.any (fun t => t == "administrative_area_level_2")) := by
  induction l with
  | nil => rfl
  | cons a l ih =>
    simp only [List.any_cons, ih]
    cases a == "locality" <;> cases a == "administrative_area_level_3" <;>
      cases a == "administrative_area_level_2" <;> simp

/-- matchesAny restated through the three separate per-tag scans. -/
theorem matchesAny_eq (c : AddressComponent) :
    matchesAny c
      = (c.types.any (fun t => t == "locality")
        || c.types.any (fun t => t == "administrative_area_level_3")
        || c.types.any (fun t => t == "administrative_area_level_2")) :=
  any_priority_split c.types

/-- The source's scan-with-break equals the first-matching-component
selection: the long_name of the first component carrying any priority tag,
or the empty string. -/
theorem matchTownship_eq_firstPriorityName (cs : List AddressComponent) :
    matchTownship cs = firstPriorityName cs := by
  induction cs with
  | nil => rfl
  | cons c rest ih =>
    by_cases h1 : c.types.any (fun t => t == "locality") = true
    · have hm : matchesAny c = true := by rw [matchesAny_eq, h1]; rfl
      simp [matchTownship, firstPriorityName, List.find?_cons_of_pos _ hm, h1]
    · by_cases h2 : c.types.any (fun t => t == "administrative_area_level_3") = true
      · have hm : matchesAny c = true := by rw [matchesAny_eq, h2]; simp
        simp [matchTownship, firstPriorityName, List.find?_cons_of_pos _ hm, h1, h2]
      · by_cases h3 : c.types.any (fun t => t == "administrative_area_level_2") = true
        · have hm : matchesAny c = true := by rw [matchesAny_eq, h3]; simp
          simp [matchTownship, firstPriorityName, List.find?_cons_of_pos _ hm, h1, h2, h3]
        · have hm : ¬ matchesAny c = true := by rw [matchesAny_eq]; simp [h1, h2, h3]
          simp [matchTownship, firstPriorityName, List.find?_cons_of_neg _ hm, h1, h2, h3, ih]

/-- On an OK status with a first result, the resolver output is the first
result's formatted_address with the first-priority-component name after
the Springfield override. -/
theorem get_township_ok (r : GeoDataAddress) (fr : AddressResult)
    (h1 : r.status = "OK") (h2 : r.results.head? = some fr) :
    get_township r
      = some (fr.formatted_address,
          applySpringfieldOverride (firstPriorityName fr.address_components)) := by
  simp [get_township, h1, h2, matchTownship_eq_firstPriorityName]

/-- C1: get_township returns none if and only if the response's status is
not the literal string "OK" or its results sequence is empty. -/
theorem get_township_none_iff (r : GeoDataAddress) :
    get_township r = none ↔ (r.status ≠ "OK" ∨ r.results = []) := by
  by_cases h : r.status = "OK"
  · cases hr : r.results with
    | nil => simp [get_township, h, hr]
    | cons a l => simp [get_township, h, hr]
  · simp [get_township, h]

/-- A result whose level-2-tagged county component precedes its
level-3-tagged township component, with no locality tag anywhere. -/
def l2BeforeL3Fr : AddressResult :=
  { address_components :=
      [ { long_name := "Clark County", short_name := "CC",
          types := ["administrative_area_level_2", "political"] },
        { long_name := "Pine Township", short_name := "PT",
          types := ["administrative_area_level_3", "political"] } ],
    formatted_address := "1 Rural Rd" }

/-- An OK response around l2BeforeL3Fr. -/
def l2BeforeL3 : GeoDataAddress := { status := "OK", results := [l2BeforeL3Fr] }

/-- A result whose level-3-tagged component precedes its level-2-tagged
component, with no locality tag anywhere. -/
def l3FirstFr : AddressResult :=
  { address_components :=
      [ { long_name := "Pine Township", short_name := "PT",
          types := ["administrative_area_level_3", "political"] },
        { long_name := "Clark County", short_name := "CC",
          types := ["administrative_area_level_2", "political"] } ],
    formatted_address := "2 Rural Rd" }

/-- An OK response around l3FirstFr. -/
def l3First : GeoDataAddress := { status := "OK", results := [l3FirstFr] }

/-- A result resolving to the exact name "Springfield". -/
def springfieldFr : AddressResult :=
  { address_components :=
      [ { long_name := "Springfield", short_name := "SF", types := ["locality"] } ],
    formatted_address := "3 Main St" }

/-- An OK response around springfieldFr. -/
def springfieldR : GeoDataAddress := { status := "OK", results := [springfieldFr] }

/-- A result resolving to "Springfieldville", which contains "Springfield"
as a proper substring. -/
def springfieldvilleFr : AddressResult :=
  { address_components :=
      [ { long_name := "Springfieldville", short_name := "SV", types := ["locality"] } ],
    formatted_address := "4 Main St" }

/-- An OK response around springfieldvilleFr. -/
def springfieldvilleR : GeoDataAddress := { status := "OK", results := [springfieldvilleFr] }

/-- A result none of whose components carries any of the three priority
tags. -/
def noTagFr : AddressResult :=
  { address_components :=
      [ { long_name := "Ohio", short_name := "OH",
          types := ["administrative_area_level_1", "political"] },
        { long_name := "United States", short_name := "US", types := ["country"] } ],
    formatted_address := "5 Nowhere Ln" }

/-- An OK response around noTagFr. -/
def noTagR : GeoDataAddress := { status := "OK", results := [noTagFr] }

/-- C2: on status "OK" with a first result, the resolver's selection is a
single in-order pass over that result's components: the township is the
long_name of the first component whose types contain any of "locality",
"administrative_area_level_3" or "administrative_area_level_2" (then
subject to the Springfield override), so a match found on an earlier
component is never overridden and a later component wins only when every
earlier component matches none of the three tags. -/
theorem get_township_scan (r : GeoDataAddress) (fr : AddressResult)
    (h1 : r.status = "OK") (h2 : r.results.head? = some fr) :
    get_township r
      = some (fr.formatted_address,
          applySpringfieldOverride (firstPriorityName fr.address_components)) :=
  get_township_ok r fr h1 h2

/-- Witness for C2 at a concrete response whose level-2 component precedes
a locality component: the earlier component wins. -/
theorem get_township_scan_witness :
    get_township l2BeforeL3 = some ("1 Rural Rd", "Clark County") := by
  have h := get_township_scan l2BeforeL3 l2BeforeL3Fr rfl rfl
  exact h.trans (by decide)

/-- C3 counterexample: an OK response whose first result has no "locality"
tag anywhere and has a component tagged "administrative_area_level_3", yet
the resolver selects the "administrative_area_level_2" component's
long_name because that component comes first in the list. -/
theorem level3_preference_cex :
    (∀ c ∈ l2BeforeL3Fr.address_components, ¬ "locality" ∈ c.types)
    ∧ (∃ c ∈ l2BeforeL3Fr.address_components,
        "administrative_area_level_3" ∈ c.types ∧ c.long_name = "Pine Township")
    ∧ l2BeforeL3.status = "OK"
    ∧ l2BeforeL3.results.head? = some l2BeforeL3Fr
    ∧ get_township l2BeforeL3 = some ("1 Rural Rd", "Clark County")
    ∧ ("Clark County" : String) ≠ "Pine Township" := by
  decide

/-- C3 amended: with no "locality" tag anywhere in the first result, the
level-3 component's long_name is selected over any level-2 component
provided the level-3 component is the first component carrying any of the
three priority tags, that is, no level-2-tagged component precedes it; the
Springfield override still applies to the selected name afterwards. -/
theorem get_township_level3_first (r : GeoDataAddress) (fr : AddressResult)
    (c : AddressComponent)
    (hloc : ∀ a ∈ fr.address_components, ¬ "locality" ∈ a.types)
    (h1 : r.status = "OK") (h2 : r.results.head? = some fr)
    (hfind : fr.address_components.find? matchesAny = some c)
    (hl3 : "administrative_area_level_3" ∈ c.types) :
    get_township r = some (fr.formatted_address, applySpringfieldOverride c.long_name) := by
  rw [get_township_ok r fr h1 h2]
  simp [firstPriorityName, hfind]

/-- Witness for the amended C3 at a concrete response whose level-3
component precedes the level-2 component. -/
theorem get_township_level3_first_witness :
    get_township l3First = some ("2 Rural Rd", "Pine Township") := by
  have h := get_township_level3_first l3First l3FirstFr
    ⟨"Pine Township", "PT", ["administrative_area_level_3", "political"]⟩
    (by decide) rfl rfl (by decide) (by decide)
  exact h.trans (by decide)

/-- C4: the Springfield override applies exactly when the selected name is
the unmodified string "Springfield", which becomes "Springfield City"; any
other selected name, including one merely containing "Springfield" as a
substring, is returned unchanged. -/
theorem springfield_override_exact (r : GeoDataAddress) (fr : AddressResult)
    (h1 : r.status = "OK") (h2 : r.results.head? = some fr) :
    (firstPriorityName fr.address_components = "Springfield" →
      get_township r = some (fr.formatted_address, "Springfield City"))
    ∧ (firstPriorityName fr.address_components ≠ "Springfield" →
      get_township r = some (fr.formatted_address, firstPriorityName fr.address_components)) := by
  constructor <;> intro h <;>
    rw [get_township_ok r fr h1 h2] <;> simp [applySpringfieldOverride, h]

/-- Witness for C4: the exact name "Springfield" is rewritten to
"Springfield City", while "Springfieldville" passes through unchanged. -/
theorem springfield_override_exact_witness :
    get_township springfieldR = some ("3 Main St", "Springfield City")
    ∧ get_township springfieldvilleR = some ("4 Main St", "Springfieldville") := by
  constructor
  · have h := (springfield_override_exact springfieldR springfieldFr rfl rfl).1 (by decide)
    exact h.trans (by decide)
  · have h := (springfield_override_exact springfieldvilleR springfieldvilleFr rfl rfl).2 (by decide)
    exact h.trans (by decide)

/-- C5: on status "OK" with a first result none of whose components
carries any of the three priority tags, the resolver still returns some
with the empty-string township rather than none. -/
theorem no_tag_empty_township (r : GeoDataAddress) (fr : AddressResult)
    (h1 : r.status = "OK") (h2 : r.results.head? = some fr)
    (hnone : ∀ c ∈ fr.address_components, matchesAny c = false) :
    get_township r = some (fr.formatted_address, "") := by
  rw [get_township_ok r fr h1 h2]
  have hfind : fr.address_components.find? matchesAny = none := by
    rw [List.find?_eq_none]
    intro c hc
    simp [hnone c hc]
  simp [firstPriorityName, hfind, applySpringfieldOverride]

/-- Witness for C5 at a concrete response carrying only
administrative_area_level_1 and country tags. -/
theorem no_tag_empty_township_witness :
    get_township noTagR = some ("5 Nowhere Ln", "") := by
  have h := no_tag_empty_township noTagR noTagFr rfl rfl (by decide)
  exact h.trans (by decide)

/-- When every fetch in the list succeeds, the fetch loop returns the
responses in input order and their resolver rows equal the filter-map of
the addresses through client and resolver. -/
theorem fetchAll_filterMap (key : String)
    (fetch : String → String → Except Unit GeoDataAddress) :
    ∀ addrs : List String, (∀ a ∈ addrs, ∃ r, fetch key a = Except.ok r) →
      ∃ rs, fetchAll key fetch addrs = Except.ok rs
        ∧ rs.filterMap get_township = addrs.filterMap (resolveAddr key fetch)
  | [], _ => ⟨[], rfl, rfl⟩
  | a :: rest, hok => by
    obtain ⟨r, hr⟩ := hok a (List.mem_cons_self a rest)
    obtain ⟨rs, hrs, hmap⟩ := fetchAll_filterMap key fetch rest
      (fun b hb => hok b (List.mem_cons_of_mem a hb))
    refine ⟨r :: rs, by simp [fetchAll, hr, hrs], ?_⟩
    cases hgt : get_township r <;>
      simp [List.filterMap_cons, resolveAddr, hr, hgt, hmap]

/-- C6: when every geocode call succeeds, the batch run writes the header
row followed by exactly the order-preserving filter-map of the input
addresses through the client and the resolver: rows appear in input order,
with no reordering and no deduplication. -/
theorem pipeline_order_preserving (key : String)
    (fetch : String → String → Except Unit GeoDataAddress) (addrs : List String)
    (hok : ∀ a ∈ addrs, ∃ r, fetch key a = Except.ok r) :
    mainRun (Except.ok addrs) (Except.ok key) fetch
      = Except.ok (some (("Address", "Township")
          :: addrs.filterMap (resolveAddr key fetch))) := by
  obtain ⟨rs, hrs, hmap⟩ := fetchAll_filterMap key fetch addrs hok
  simp [mainRun, get_geo_data, processResults, hrs, hmap]

/-- A demonstration fetch oracle: addr1 resolves to Springfield, addr2
gets a ZERO_RESULTS response, every other address resolves with no
priority tag. -/
def demoFetch : String → String → Except Unit GeoDataAddress :=
  fun _ a =>
    if a = "addr1" then Except.ok springfieldR
    else if a = "addr2" then Except.ok { status := "ZERO_RESULTS", results := [] }
    else Except.ok noTagR

/-- Witness for C6 at a concrete three-address batch: rows come out in
input order, with the unresolvable middle address skipped. -/
theorem pipeline_order_preserving_witness :
    mainRun (Except.ok ["addr1", "addr2", "addr3"]) (Except.ok "key") demoFetch
      = Except.ok (some [("Address", "Township"), ("3 Main St", "Springfield City"),
          ("5 Nowhere Ln", "")]) := by
  have hok : ∀ a ∈ ["addr1", "addr2", "addr3"], ∃ r, demoFetch "key" a = Except.ok r := by
    intro a ha
    fin_cases ha <;> exact ⟨_, rfl⟩
  have h := pipeline_order_preserving "key" demoFetch ["addr1", "addr2", "addr3"] hok
  exact h.trans rfl

/-- When every address in the prefix fetches successfully and the next
address's fetch fails, the whole fetch loop returns that error. -/
theorem fetchAll_error (key : String)
    (fetch : String → String → Except Unit GeoDataAddress) :
    ∀ (pre : List String) (bad : String) (post : List String) (e : Unit),
      (∀ a ∈ pre, ∃ r, fetch key a = Except.ok r) →
      fetch key bad = Except.error e →
      fetchAll key fetch (pre ++ bad :: post) = Except.error e
  | [], bad, post, e, _, hbad => by simp [fetchAll, hbad]
  | p :: pre, bad, post, e, hpre, hbad => by
    obtain ⟨r, hr⟩ := hpre p (List.mem_cons_self p pre)
    have ih := fetchAll_error key fetch pre bad post e
      (fun a ha => hpre a (List.mem_cons_of_mem p ha)) hbad
    simp [List.cons_append, fetchAll, hr, ih]

/-- C7: if the geocode call fails at some position, all earlier calls
having succeeded, the whole batch run aborts with that error: mainRun
returns the error, so no output file is created and no rows are emitted,
not even for the addresses preceding the failing one. -/
theorem pipeline_abort_on_transport_error (key : String)
    (fetch : String → String → Except Unit GeoDataAddress)
    (pre post : List String) (bad : String) (e : Unit)
    (hpre : ∀ a ∈ pre, ∃ r, fetch key a = Except.ok r)
    (hbad : fetch key bad = Except.error e) :
    mainRun (Except.ok (pre ++ bad :: post)) (Except.ok key) fetch
      = Except.error e := by
  have habort := fetchAll_error key fetch pre bad post e hpre hbad
  simp [mainRun, get_geo_data, habort, processResults]

/-- A fetch oracle that fails on addr2 and succeeds elsewhere. -/
def failFetch : String → String → Except Unit GeoDataAddress :=
  fun _ a => if a = "addr2" then Except.error () else Except.ok springfieldR

/-- Witness for C7: a transport failure on the middle of three addresses
aborts the whole run with the error, emitting nothing. -/
theorem pipeline_abort_witness :
    mainRun (Except.ok ["addr1", "addr2", "addr3"]) (Except.ok "key") failFetch
      = Except.error () := by
  have hpre : ∀ a ∈ ["addr1"], ∃ r, failFetch "key" a = Except.ok r := by
    intro a ha
    fin_cases ha
    exact ⟨_, rfl⟩
  exact pipeline_abort_on_transport_error "key" failFetch ["addr1"] ["addr3"] "addr2" ()
    hpre rfl

/-- Inserting one successfully fetched but unresolvable address anywhere
in the batch leaves the fetch loop's outcome equivalent: both runs fail
identically, or both succeed with response lists whose resolver rows are
equal. -/
theorem fetchAll_skip (key : String)
    (fetch : String → String → Except Unit GeoDataAddress)
    (a : String) (ra : GeoDataAddress) (post : List String)
    (ha : fetch key a = Except.ok ra) (hnone : get_township ra = none) :
    ∀ pre : List String,
      (fetchAll key fetch (pre ++ a :: post) = Except.error ()
        ∧ fetchAll key fetch (pre ++ post) = Except.error ())
      ∨ (∃ rsL rsR, fetchAll key fetch (pre ++ a :: post) = Except.ok rsL
          ∧ fetchAll key fetch (pre ++ post) = Except.ok rsR
          ∧ rsL.filterMap get_township = rsR.filterMap get_township)
  | [] => by
    simp only [List.nil_append]
    cases hpost : fetchAll key fetch post with
    | error e =>
      exact Or.inl ⟨by simp [fetchAll, ha, hpost], rfl⟩
    | ok rs =>
      refine Or.inr ⟨ra :: rs, rs, by simp [fetchAll, ha, hpost], rfl, ?_⟩
      simp [List.filterMap_cons, hnone]
  | p :: pre => by
    cases hp : fetch key p with
    | error e =>
      exact Or.inl ⟨by simp [List.cons_append, fetchAll, hp],
        by simp [List.cons_append, fetchAll, hp]⟩
    | ok r =>
      rcases fetchAll_skip key fetch a ra post ha hnone pre with
        ⟨hL, hR⟩ | ⟨rsL, rsR, hL, hR, hM⟩
      · exact Or.inl ⟨by simp [List.cons_append, fetchAll, hp, hL],
          by simp [List.cons_append, fetchAll, hp, hR]⟩
      · refine Or.inr ⟨r :: rsL, r :: rsR,
          by simp [List.cons_append, fetchAll, hp, hL],
          by simp [List.cons_append, fetchAll, hp, hR], ?_⟩
        cases hgt : get_township r <;> simp [List.filterMap_cons, hgt, hM]

/-- C8: an address whose successful geocode response the resolver rejects
is silently skipped: the whole run's outcome equals the run on the batch
with that address removed, so it contributes no row and every other
address is processed exactly as if it were absent. -/
theorem pipeline_skips_unresolved (key : String)
    (fetch : String → String → Except Unit GeoDataAddress)
    (pre post : List String) (a : String) (ra : GeoDataAddress)
    (ha : fetch key a = Except.ok ra) (hnone : get_township ra = none) :
    mainRun (Except.ok (pre ++ a :: post)) (Except.ok key) fetch
      = mainRun (Except.ok (pre ++ post)) (Except.ok key) fetch := by
  rcases fetchAll_skip key fetch a ra post ha hnone pre with
    ⟨hL, hR⟩ | ⟨rsL, rsR, hL, hR, hM⟩
  · simp [mainRun, get_geo_data, processResults, hL, hR]
  · simp [mainRun, get_geo_data, processResults, hL, hR, hM]

/-- Witness for C8: dropping the ZERO_RESULTS middle address of a
three-address batch leaves the run's output unchanged. -/
theorem pipeline_skips_unresolved_witness :
    mainRun (Except.ok (["addr1"] ++ "addr2" :: ["addr3"])) (Except.ok "key") demoFetch
      = mainRun (Except.ok (["addr1"] ++ ["addr3"])) (Except.ok "key") demoFetch :=
  pipeline_skips_unresolved "key" demoFetch ["addr1"] ["addr3"] "addr2"
    { status := "ZERO_RESULTS", results := [] } rfl rfl

/-- A fetch oracle that always fails, used to show the read-failure path
never consults the network. -/
def cexFetch : String → String → Except Unit GeoDataAddress :=
  fun _ _ => Except.error ()

/-- C9 counterexample: when the address-file read fails, main's `if let
Ok` drops the error, so the run terminates successfully with no output
file (Except.ok none) instead of surfacing the failure as an error. -/
theorem read_failure_swallowed_cex :
    mainRun (Except.error ()) (Except.ok "key") cexFetch = Except.ok none
    ∧ mainRun (Except.error ()) (Except.ok "key") cexFetch ≠ Except.error () :=
  ⟨rfl, fun h => Except.noConfusion h⟩

/-- C9 amended: when the input address file cannot be read, the run makes
no geocode call (the outcome is independent of the credential and the
fetch oracle) and produces no output file, but the failure is silently
discarded: the process terminates successfully rather than aborting with
the error surfaced. -/
theorem read_failure_no_output (apiKey : Except Unit String)
    (fetch : String → String → Except Unit GeoDataAddress) :
    mainRun (Except.error ()) apiKey fetch = Except.ok none := rfl

/-- Every scan outcome is either the empty string or the long_name of a
component carrying one of the three priority tags. -/
theorem matchTownship_provenance (cs : List AddressComponent) :
    matchTownship cs = ""
    ∨ ∃ c ∈ cs, matchTownship cs = c.long_name
        ∧ ("locality" ∈ c.types ∨ "administrative_area_level_3" ∈ c.types
          ∨ "administrative_area_level_2" ∈ c.types) := by
  induction cs with
  | nil => exact Or.inl rfl
  | cons c rest ih =>
    by_cases h1 : c.types.any (fun t => t == "locality") = true
    · obtain ⟨t, ht, hbeq⟩ := List.any_eq_true.mp h1
      refine Or.inr ⟨c, List.mem_cons_self c rest, by simp [matchTownship, h1], Or.inl ?_⟩
      exact (beq_iff_eq.mp hbeq) ▸ ht
    · by_cases h2 : c.types.any (fun t => t == "administrative_area_level_3") = true
      · obtain ⟨t, ht, hbeq⟩ := List.any_eq_true.mp h2
        refine Or.inr ⟨c, List.mem_cons_self c rest,
          by simp [matchTownship, h1, h2], Or.inr (Or.inl ?_)⟩
        exact (beq_iff_eq.mp hbeq) ▸ ht
      · by_cases h3 : c.types.any (fun t => t == "administrative_area_level_2") = true
        · obtain ⟨t, ht, hbeq⟩ := List.any_eq_true.mp h3
          refine Or.inr ⟨c, List.mem_cons_self c rest,
            by simp [matchTownship, h1, h2, h3], Or.inr (Or.inr ?_)⟩
          exact (beq_iff_eq.mp hbeq) ▸ ht
        · have hstep : matchTownship (c :: rest) = matchTownship rest := by
            simp [matchTownship, h1, h2, h3]
          rcases ih with h0 | ⟨d, hd, hname, htags⟩
          · exact Or.inl (hstep.trans h0)
          · exact Or.inr ⟨d, List.mem_cons_of_mem c hd, hstep.trans hname, htags⟩

/-- C10: whenever the resolver returns some pair, its first component is
the first result's formatted_address and its township is the empty
string, the literal "Springfield City", or the long_name of a component
of the first result carrying one of the three priority tags; it is never
taken from a short_name or from any result after the first. -/
theorem township_provenance (r : GeoDataAddress) (fa tw : String)
    (h : get_township r = some (fa, tw)) :
    ∃ fr, r.results.head? = some fr ∧ fa = fr.formatted_address
      ∧ (tw = "" ∨ tw = "Springfield City"
        ∨ ∃ c ∈ fr.address_components, tw = c.long_name
            ∧ ("locality" ∈ c.types ∨ "administrative_area_level_3" ∈ c.types
              ∨ "administrative_area_level_2" ∈ c.types)) := by
  by_cases hs : r.status = "OK"
  · cases hh : r.results.head? with
    | none => simp [get_township, hs, hh] at h
    | some fr =>
      have hgt := get_township_ok r fr hs hh
      have heq := Option.some.inj (hgt.symm.trans h)
      have hfa : fr.formatted_address = fa := congrArg Prod.fst heq
      have htw : applySpringfieldOverride (firstPriorityName fr.address_components) = tw :=
        congrArg Prod.snd heq
      refine ⟨fr, rfl, hfa.symm, ?_⟩
      rw [← htw]
      by_cases hspr : firstPriorityName fr.address_components = "Springfield"
      · exact Or.inr (Or.inl (by simp [applySpringfieldOverride, hspr]))
      · rw [show applySpringfieldOverride (firstPriorityName fr.address_components)
            = firstPriorityName fr.address_components from
          by simp [applySpringfieldOverride, hspr], ← matchTownship_eq_firstPriorityName]
        rcases matchTownship_provenance fr.address_components with h0 | ⟨c, hc, hname, htags⟩
        · exact Or.inl h0
        · exact Or.inr (Or.inr ⟨c, hc, hname, htags⟩)
  · simp [get_township, hs] at h

/-- Witness for C10 at the Springfield response: the pair's first
component is the formatted address and its township is the literal
"Springfield City". -/
theorem township_provenance_witness :
    ∃ fr, springfieldR.results.head? = some fr
      ∧ "3 Main St" = fr.formatted_address
      ∧ (("Springfield City" : String) = "" ∨ ("Springfield City" : String) = "Springfield City"
        ∨ ∃ c ∈ fr.address_components, ("Springfield City" : String) = c.long_name
            ∧ ("locality" ∈ c.types ∨ "administrative_area_level_3" ∈ c.types
              ∨ "administrative_area_level_2" ∈ c.types)) :=
  township_provenance springfieldR "3 Main St" "Springfield City" (by decide)

end Township
